import Mathlib

/-!
Shallow embedding of the ICLR_Analysis repository (scripts/convert_data.py,
scripts/enrich_institutions_optimized.py, extral_analysis/anomaly_detection.py,
extral_analysis/diversity_analysis.py, extral_analysis/geographical_analysis.py).

Strings are modelled as lists of characters (Python str).  Case folding is
ASCII-only (Char.toLower / Char.toUpper), matching the ASCII data the scripts
process.  Python regular expressions used by the source are all of the shape
`(?i).*CORE.*` built from literals, alternation, interior `.*` gaps and word
boundaries; they are embedded by the small RE type below with existential
(backtracking) match semantics, which agrees with re.match on these patterns
because only the boolean match result is ever used by the source.
-/

namespace ICLR

abbrev Str := List Char

def lowerS (s : Str) : Str := s.map Char.toLower

def upperS (s : Str) : Str := s.map Char.toUpper

/-- Python str.strip (ASCII whitespace). -/
def trimL (s : Str) : Str :=
  ((s.dropWhile Char.isWhitespace).reverse.dropWhile Char.isWhitespace).reverse

/-- Python substring test (the `in` operator on str). -/
def containsSub (pat : Str) : Str → Bool
  | [] => pat.isEmpty
  | c :: rest => pat.isPrefixOf (c :: rest) || containsSub pat rest

/-- Python str.replace: replace all non-overlapping occurrences, left to right.
Fuel-structured so that it reduces in the kernel; fuel = length of the haystack
suffices because every step consumes at least one character. -/
def replaceSubFuel (pat repl : Str) : Nat → Str → Str
  | _, [] => []
  | 0, hay => hay
  | fuel + 1, c :: rest =>
    if pat.isPrefixOf (c :: rest) then
      repl ++ replaceSubFuel pat repl fuel (List.drop (pat.length - 1) rest)
    else
      c :: replaceSubFuel pat repl fuel rest

def replaceSub (pat repl hay : Str) : Str :=
  if pat.isEmpty then hay else replaceSubFuel pat repl hay.length hay

/-- Python str.split(sep) for a non-empty separator. -/
def splitStrFuel (sep : Str) : Nat → Str → List Str
  | _, [] => [[]]
  | 0, hay => [hay]
  | fuel + 1, c :: rest =>
    if sep.isPrefixOf (c :: rest) then
      [] :: splitStrFuel sep fuel (List.drop (sep.length - 1) rest)
    else
      match splitStrFuel sep fuel rest with
      | [] => [[c]]
      | h :: t => (c :: h) :: t

def splitStr (sep hay : Str) : List Str :=
  if sep.isEmpty then [hay] else splitStrFuel sep hay.length hay

/-- Word characters for the regex \b boundary (ASCII \w). -/
def isWordChar (c : Char) : Bool := c.isAlphanum || c == '_'

def boundaryOk (prev next : Option Char) : Bool :=
  let pw := match prev with | some c => isWordChar c | none => false
  let nw := match next with | some c => isWordChar c | none => false
  pw != nw

/-- Regular-expression fragments used by normalize_institution:
case-insensitive literals, word boundaries, `.*` gaps, alternation and
concatenation. -/
inductive RE where
  | eps : RE
  | lit : Str → RE
  | wb : RE
  | gap : RE
  | alt : RE → RE → RE
  | seq : RE → RE → RE
deriving DecidableEq

/-- Consume a case-insensitive literal (pattern chars stored lowercase). -/
def eatLit : Str → Option Char → Str → Option (Option Char × Str)
  | [], prev, s => some (prev, s)
  | _ :: _, _, [] => none
  | p :: ps, _, c :: cs => if p == c.toLower then eatLit ps (some c) cs else none

def suffixStates (prev : Option Char) : Str → List (Option Char × Str)
  | [] => [(prev, [])]
  | c :: cs => (prev, c :: cs) :: suffixStates (some c) cs

/-- Nondeterministic matcher: all states (last consumed char, remaining input)
reachable after matching the pattern against a prefix of the input. -/
def RE.runM : RE → Option Char → Str → List (Option Char × Str)
  | .eps, prev, s => [(prev, s)]
  | .lit p, prev, s =>
    match eatLit p prev s with
    | some st => [st]
    | none => []
  | .wb, prev, s => if boundaryOk prev s.head? then [(prev, s)] else []
  | .gap, prev, s => suffixStates prev s
  | .alt p q, prev, s => p.runM prev s ++ q.runM prev s
  | .seq p q, prev, s => (p.runM prev s).flatMap (fun st => q.runM st.1 st.2)

/-- Python re.match for the patterns of the source (every source pattern has an
explicit leading and trailing `.*`, carried by the RE transcription). -/
def reMatch (re : RE) (s : Str) : Bool := !(re.runM none s).isEmpty

def litS (s : String) : RE := .lit (lowerS s.data)

def altL : List RE → RE
  | [] => .eps
  | [p] => p
  | p :: ps => .alt p (altL ps)

def seqL : List RE → RE
  | [] => .eps
  | [p] => p
  | p :: ps => .seq p (seqL ps)

/-- Pattern shape `.*CORE.*`. -/
def patCore (core : RE) : RE := seqL [.gap, core, .gap]

/-- Pattern shape `(?i).*X.*`. -/
def pat1 (s : String) : RE := patCore (litS s)

/-- Pattern shape `(?i).*(A|B|...).*`. -/
def patA (alts : List String) : RE := patCore (altL (alts.map litS))

/-- Pattern shape `(?i).*(A|...).*(B|...).*`. -/
def patAB (a b : List String) : RE :=
  patCore (seqL [altL (a.map litS), .gap, altL (b.map litS)])

/-- Pattern shape `(?i).*\b(A|B|...)\b.*`. -/
def patWB (alts : List String) : RE :=
  patCore (seqL [.wb, altL (alts.map litS), .wb])

/-! ### scripts/enrich_institutions_optimized.py : normalize_institution -/

namespace Enrich

open ICLR

/-- Typo corrections applied before rule matching (typo_map, applied in
insertion order; each replacement is guarded by a containment test as in the
source). -/
def typoPairs : List (String × String) :=
  [("Univeristy", "University"), ("Univeresity", "University"),
   ("Technolgy", "Technology"), ("Instiute", "Institute"),
   ("Institue", "Institute"), ("Sceince", "Science"),
   ("Schol", "School"), ("Guang Zhou", "Guangzhou"),
   ("Laboratpry", "Laboratory"), ("Loboratory", "Laboratory")]

def applyTypos (raw : Str) : Str :=
  typoPairs.foldl
    (fun r kv =>
      if containsSub kv.1.data r then replaceSub kv.1.data kv.2.data r else r)
    raw

/-- Rule 1: the Tsinghua-Berkeley special case. -/
def tsinghuaBerkeleyRule : RE := pat1 "Tsinghua-Berkeley"

/-- Rule 2: Lawrence Berkeley National Laboratory. -/
def lawrenceBerkeleyRule : RE := pat1 "Lawrence Berkeley"

/-- Rule 3: UC Berkeley. -/
def ucBerkeleyRule : RE :=
  patCore (altL [litS "UC Berkeley",
    seqL [litS "University of California", .gap, litS "Berkeley"]])

/-- Rule 4: the campus-specific HKUST (Guangzhou) pattern. -/
def hkustGZRule : RE :=
  patAB ["HKUST", "Hong Kong University of Science and Technology"]
    ["Guangzhou", "GZ"]

/-- Rule 5: the generic HKUST pattern. -/
def hkustMainRule : RE :=
  patA ["HKUST", "Hong Kong University of Science and Technology"]

/-- The rule list of normalize_institution after the five Berkeley/HKUST
rules, transcribed regex by regex from the source. -/
def instRulesRest : List (RE × String) :=
  [ (patAB ["CUHK", "Chinese University of Hong Kong"] ["Shenzhen", "SZ"],
      "The Chinese University of Hong Kong, Shenzhen"),
    (patA ["CUHK", "Chinese University of Hong Kong"],
      "The Chinese University of Hong Kong"),
    (patA ["LMU", "Ludwig-Maximilians"], "Ludwig Maximilian University of Munich"),
    (patA ["TUM", "Technische Universität München",
           "Technical University of Munich", "TU Munich"],
      "Technical University of Munich"),
    (patA ["KIT", "Karlsruhe Institute of Technology"],
      "Karlsruhe Institute of Technology"),
    (patAB ["ETH", "Swiss Federal Institute of Technology"] ["Zurich"],
      "ETH Zurich"),
    (pat1 "ETH Zurich", "ETH Zurich"),
    (patAB ["EPFL", "Swiss Federal Institute of Technology"] ["Lausanne"],
      "EPFL"),
    (pat1 "Sorbonne", "Sorbonne University"),
    (pat1 "Imperial College", "Imperial College London"),
    (pat1 "University College London", "University College London"),
    (patWB ["CMU", "Carnegie Mellon"], "Carnegie Mellon University"),
    (patWB ["MIT", "Massachusetts Institute of Technology"],
      "Massachusetts Institute of Technology"),
    (patWB ["UIUC"], "University of Illinois Urbana-Champaign"),
    (patCore (seqL [litS "University of Illinois", .gap, litS "Urbana",
        .gap, litS "Champaign"]),
      "University of Illinois Urbana-Champaign"),
    (patWB ["UCSD"], "University of California, San Diego"),
    (patCore (seqL [litS "University of California", .gap, litS "San Diego"]),
      "University of California, San Diego"),
    (patWB ["UCLA"], "University of California, Los Angeles"),
    (patCore (seqL [litS "University of California", .gap, litS "Los Angeles"]),
      "University of California, Los Angeles"),
    (patWB ["USC"], "University of Southern California"),
    (pat1 "University of Southern California", "University of Southern California"),
    (patWB ["NYU"], "New York University"),
    (pat1 "New York University", "New York University"),
    (patWB ["Georgia Tech"], "Georgia Institute of Technology"),
    (pat1 "Georgia Institute of Technology", "Georgia Institute of Technology"),
    (patWB ["UW"], "University of Washington"),
    (pat1 "University of Washington", "University of Washington"),
    (patWB ["Caltech"], "California Institute of Technology"),
    (pat1 "California Institute of Technology", "California Institute of Technology"),
    (patWB ["UT Austin"], "University of Texas at Austin"),
    (pat1 "University of Texas at Austin", "University of Texas at Austin"),
    (patWB ["UMich"], "University of Michigan"),
    (pat1 "University of Michigan", "University of Michigan"),
    (pat1 "Johns Hopkins", "Johns Hopkins University"),
    (pat1 "Stanford", "Stanford University"),
    (pat1 "Princeton", "Princeton University"),
    (pat1 "Harvard", "Harvard University"),
    (pat1 "Yale", "Yale University"),
    (pat1 "Cornell", "Cornell University"),
    (pat1 "Columbia University", "Columbia University"),
    (patWB ["Tsinghua", "THU"], "Tsinghua University"),
    (patWB ["Peking University", "PKU"], "Peking University"),
    (patCore (altL [litS "SJTU",
        seqL [litS "Shanghai Jiao", .gap, litS "Tong"]]),
      "Shanghai Jiao Tong University"),
    (patWB ["Fudan"], "Fudan University"),
    (patA ["Zhejiang University", "ZJU"], "Zhejiang University"),
    (patA ["USTC", "University of Science and Technology of China"],
      "University of Science and Technology of China"),
    (patA ["Nanjing University", "NJU"], "Nanjing University"),
    (patA ["Sun Yat-sen", "SYSU"], "Sun Yat-sen University"),
    (patA ["Harbin Institute of Technology", "HIT"],
      "Harbin Institute of Technology"),
    (patA ["Beihang", "Beijing University of Aeronautics"], "Beihang University"),
    (patA ["UCAS", "University of Chinese Academy of Sciences"],
      "University of Chinese Academy of Sciences"),
    (patCore (altL [litS "Chinese Academy of Sciences",
        .seq (litS "CAS") .wb,
        seqL [litS "Institute of Automation", .gap, litS "CAS"],
        seqL [litS "Institute of Computing", .gap, litS "CAS"]]),
      "Chinese Academy of Sciences"),
    (patA ["KAIST", "Korea Advanced Institute"],
      "Korea Advanced Institute of Science and Technology"),
    (patA ["SNU", "Seoul National University"], "Seoul National University"),
    (patA ["POSTECH", "Pohang University"],
      "Pohang University of Science and Technology"),
    (patWB ["NUS"], "National University of Singapore"),
    (pat1 "National University of Singapore", "National University of Singapore"),
    (patWB ["NTU"], "Nanyang Technological University"),
    (pat1 "Nanyang Technological University", "Nanyang Technological University"),
    (pat1 "University of Tokyo", "The University of Tokyo"),
    (patWB ["Google", "DeepMind"], "Google DeepMind"),
    (patWB ["Meta", "Facebook"], "Meta"),
    (patWB ["Microsoft", "Msft"], "Microsoft"),
    (patWB ["NVIDIA"], "NVIDIA"),
    (patWB ["ByteDance", "TikTok"], "ByteDance"),
    (patWB ["Tencent"], "Tencent"),
    (patWB ["Alibaba"], "Alibaba Group"),
    (patWB ["Baidu"], "Baidu"),
    (patWB ["Huawei"], "Huawei Technologies"),
    (patWB ["Amazon", "AWS"], "Amazon"),
    (patWB ["Apple"], "Apple"),
    (patWB ["Adobe"], "Adobe"),
    (patWB ["Samsung"], "Samsung"),
    (patWB ["Sony"], "Sony"),
    (patWB ["Uber"], "Uber"),
    (patWB ["OpenAI"], "OpenAI"),
    (patWB ["Salesforce"], "Salesforce"),
    (patWB ["IBM"], "IBM"),
    (patWB ["Intel"], "Intel"),
    (patWB ["Qualcomm"], "Qualcomm") ]

/-- The ordered rule list of normalize_institution (first match wins),
starting with the most-specific special cases. -/
def instRules : List (RE × String) :=
  (tsinghuaBerkeleyRule, "Tsinghua University") ::
    (lawrenceBerkeleyRule, "Lawrence Berkeley National Laboratory") ::
      (ucBerkeleyRule, "University of California, Berkeley") ::
        (hkustGZRule,
            "Hong Kong University of Science and Technology (Guangzhou)") ::
          (hkustMainRule, "Hong Kong University of Science and Technology") ::
            instRulesRest

/-- First matching rule wins. -/
def findRule : List (RE × String) → Str → Option String
  | [], _ => none
  | (re, out) :: rs, raw => if reMatch re raw then some out else findRule rs raw

/-- Keyword search of the comma fallback:
re.search(r'(University|College|Institute|Lab|Inc|Corp)', p, IGNORECASE). -/
def kwSearchHit (p : Str) : Bool :=
  ["University", "College", "Institute", "Lab", "Inc", "Corp"].any
    (fun kw => containsSub (lowerS kw.data) (lowerS p))

/-- The comma fallback: scan comma segments in reverse for one that looks like
an institution; otherwise take the last segment. -/
def commaFallback (raw : Str) : Str :=
  let parts := splitStr [','] raw
  match parts.reverse.find? (fun part => kwSearchHit (trimL part)) with
  | some part => trimL part
  | none => trimL (parts.getLastD [])

/-- The string actually handed to the rule matcher: strip, '&' to " and ",
typo fixes. -/
def rawOf (name : Str) : Str :=
  applyTypos (replaceSub ['&'] " and ".data (trimL name))

/-- normalize_institution on a (non-None) string argument.  Returns none where
Python returns None.  The emptiness test is on the stripped, '&'-replaced
string (before typo fixes), as in the source; the rule matcher and fallback
consume the typo-fixed string rawOf name. -/
def normInstL (name : Str) : Option Str :=
  if name.isEmpty then none
  else if (replaceSub ['&'] " and ".data (trimL name)).isEmpty then none
  else
    match findRule instRules (rawOf name) with
    | some repl => some repl.data
    | none =>
      if (rawOf name).contains ',' then some (commaFallback (rawOf name))
      else some (rawOf name)

/-- normalize_institution on a possibly-None argument. -/
def normInstOpt (x : Option Str) : Option Str := x.bind normInstL

end Enrich

/-! ### scripts/convert_data.py : normalize_country, process_person,
reviewer-id synthesis -/

namespace Convert

open ICLR

def unknownStr : Str := "Unknown".data

def unknownInst : Str := "Unknown Institution".data

/-- Python `x or default` on an optional string (None and "" are falsy). -/
def pyOr (o : Option Str) (d : Str) : Str :=
  match o with
  | none => d
  | some s => if s.isEmpty then d else s

/-- Python truthiness of an optional string. -/
def truthy (o : Option Str) : Option Str :=
  match o with
  | none => none
  | some s => if s.isEmpty then none else some s

def countryCodePairs : List (String × String) :=
  [("US", "United States"), ("USA", "United States"), ("U.S", "United States"),
   ("U.S.", "United States"), ("UK", "United Kingdom"), ("GB", "United Kingdom"),
   ("GBR", "United Kingdom"), ("CN", "China"), ("CHN", "China"),
   ("HK", "China"), ("MO", "China"), ("KR", "South Korea"), ("DE", "Germany"),
   ("FR", "France"), ("CA", "Canada"), ("SG", "Singapore"), ("AU", "Australia"),
   ("JP", "Japan"), ("IN", "India"), ("ES", "Spain"), ("SE", "Sweden"),
   ("NL", "Netherlands"), ("BR", "Brazil"), ("CH", "Switzerland")]

def normCountryL (country : Option Str) : Str :=
  match country with
  | none => unknownStr
  | some c0 =>
    if c0.isEmpty then unknownStr
    else
      let c := trimL c0
      let up := upperS c
      match (countryCodePairs.find? (fun kv => kv.1.data = up)) with
      | some kv => kv.2.data
      | none =>
        if up = "HONG KONG".data ∨ up = "HONG KONG SAR".data then "China".data
        else if up = "MACAU".data ∨ up = "MACAO".data ∨ up = "MACAU SAR".data then
          "China".data
        else c

def instCountryOverrides : List (String × String) :=
  [("bytedance", "China"), ("harbin institute of technology", "China")]

def inferCountryForInstitution (name : Str) (fallback : Str) : Str :=
  if name.isEmpty then (if fallback.isEmpty then unknownStr else fallback)
  else
    match instCountryOverrides.find?
        (fun kv => containsSub kv.1.data (lowerS name)) with
    | some kv => kv.2.data
    | none => if fallback.isEmpty then unknownStr else fallback

def univKeywords : List String :=
  ["university", "universität", "universite", "université", "uni ", "uni-",
   "tech", "technological", "technology", "polytechnic", "college", "institute",
   "inst", "école", "ecole", "schule", "academy", "campus", "facoltà", "faculty",
   "eth zurich", "e.t.h", "epfl", "lmu", "lmu munich", "ludwig-maximilians",
   "berkeley", "mit", "harvard", "stanford", "oxford", "cambridge"]

def companyKeywords : List String :=
  ["inc", "corp", "co.", "co ", "ltd", "gmbh", "有限责任", "公司",
   "google", "deepmind", "meta", "facebook", "microsoft", "nvidia", "bytedance",
   "tiktok", "tencent", "kuaishou", "alibaba", "baidu", "huawei", "amazon", "aws",
   "apple", "adobe", "samsung", "sony", "uber", "openai", "salesforce", "ibm",
   "intel", "qualcomm", "tesla", "telecom"]

def inferInstitutionType (name : Str) : Option Str :=
  if name.isEmpty then none
  else
    let lower := lowerS name
    if univKeywords.any (fun kw => containsSub kw.data lower) then
      some "University".data
    else if companyKeywords.any (fun kw => containsSub kw.data lower) then
      some "Company".data
    else some "Other".data

structure PersonObj where
  id : Option Str
  name : Option Str
  institution : Option Str
  country : Option Str
deriving DecidableEq

structure PersonRec where
  name : Str
  nationality : Str
  institution : Str
  institutions : List Str
  gender : Str
  role : Str
  authored : List Int
  reviewed : List Int
deriving DecidableEq

structure InstRec where
  institution_name : Str
  country : Str
  institution_type : Option Str
deriving DecidableEq

structure ConvState where
  people : List (Str × PersonRec)
  insts : List (Str × InstRec)
deriving DecidableEq

/-- Association-list lookup (Python dict access; keys are unique). -/
def lookupA {β : Type} (k : Str) : List (Str × β) → Option β
  | [] => none
  | (k', v) :: rest => if k = k' then some v else lookupA k rest

/-- Update the entry with the given key in place. -/
def updA {β : Type} (k : Str) (f : β → β) : List (Str × β) → List (Str × β)
  | [] => []
  | (k', v) :: rest =>
    if k = k' then (k', f v) :: rest else (k', v) :: updA k f rest

/-- Python-faithful lexicographic (code-point) comparison on strings. -/
def strLe : Str → Str → Bool
  | [], _ => true
  | _ :: _, [] => false
  | a :: as, b :: bs =>
    if a.val < b.val then true else if b.val < a.val then false else strLe as bs

def insAsc (x : Str) : List Str → List Str
  | [] => [x]
  | y :: ys => if strLe x y then x :: y :: ys else y :: insAsc x ys

def sortStrs : List Str → List Str
  | [] => []
  | x :: xs => insAsc x (sortStrs xs)

/-- Role merge of process_person:
set((role or "").split(',')) ∪ {role}, drop empties, sort, join with ','. -/
def mergeRoles (stored role : Str) : Str :=
  let existing : List Str := if stored.isEmpty then [] else splitStr [','] stored
  let merged := (role :: existing).filter (fun r => !r.isEmpty)
  List.intercalate [','] (sortStrs merged.dedup)

def newPersonRec (pid : Str) (nameO : Option Str) (instName countryVal role : Str) :
    PersonRec :=
  { name := pyOr nameO (replaceSub ['_'] [' '] (replaceSub ['~'] [] pid))
    nationality := countryVal
    institution := instName
    institutions :=
      if ¬instName.isEmpty ∧ instName ≠ unknownInst then [instName] else []
    gender := unknownStr
    role := role
    authored := []
    reviewed := [] }

/-- The update branch of process_person for an already-known person id. -/
def mergePerson (p : PersonRec) (instName countryVal role : Str) : PersonRec :=
  let p1 := { p with role := mergeRoles p.role role }
  let p2 :=
    if ¬instName.isEmpty ∧ instName ≠ unknownInst then
      let lst :=
        if instName ∈ p1.institutions then p1.institutions
        else p1.institutions ++ [instName]
      let prim := if p1.institution = unknownInst then instName else p1.institution
      { p1 with institutions := lst, institution := prim }
    else p1
  if p2.nationality = unknownStr ∧ countryVal ≠ unknownStr then
    { p2 with nationality := countryVal }
  else p2

/-- The body of process_person once a truthy person id is in hand.  instName
stands for `person_obj.get('institution') or 'Unknown Institution'` and
countryVal for normalize_country of the person's country. -/
def processPersonCore (st : ConvState) (pid : Str) (obj : PersonObj)
    (role : Str) : ConvState :=
  { people :=
      match lookupA pid st.people with
      | none =>
        st.people ++
          [(pid,
            newPersonRec pid obj.name (pyOr obj.institution unknownInst)
              (normCountryL obj.country) role)]
      | some _ =>
        updA pid
          (fun p =>
            mergePerson p (pyOr obj.institution unknownInst)
              (normCountryL obj.country) role)
          st.people
    insts :=
      if ¬(pyOr obj.institution unknownInst).isEmpty ∧
          pyOr obj.institution unknownInst ≠ unknownInst then
        match lookupA (pyOr obj.institution unknownInst) st.insts with
        | none =>
          st.insts ++
            [(pyOr obj.institution unknownInst,
              { institution_name := pyOr obj.institution unknownInst
                country :=
                  inferCountryForInstitution (pyOr obj.institution unknownInst)
                    (normCountryL obj.country)
                institution_type :=
                  inferInstitutionType (pyOr obj.institution unknownInst) })]
        | some _ =>
          updA (pyOr obj.institution unknownInst)
            (fun r =>
              if r.country = unknownStr ∧
                  inferCountryForInstitution (pyOr obj.institution unknownInst)
                      (normCountryL obj.country) ≠ unknownStr then
                { r with
                    country :=
                      inferCountryForInstitution
                        (pyOr obj.institution unknownInst)
                        (normCountryL obj.country) }
              else r)
            st.insts
      else st.insts }

/-- process_person(person_obj, role): person-table and institution-table
updates, including the directional Unknown-to-known merges; a falsy person id
is a no-op. -/
def processPerson (st : ConvState) (obj : PersonObj) (role : Str) : ConvState :=
  match truthy obj.id with
  | none => st
  | some pid => processPersonCore st pid obj role

/-- Fold process_person over a record set (the per-line loops of the script). -/
def processAll (st : ConvState) (objs : List (PersonObj × Str)) : ConvState :=
  objs.foldl (fun s pr => processPerson s pr.1 pr.2) st

/-- Number of known (non-Unknown) fields of a person entry, as tracked by the
merge-monotonicity property (nationality and primary institution). -/
def knownFields (p : PersonRec) : Nat :=
  (if p.nationality ≠ unknownStr then 1 else 0) +
    (if p.institution ≠ unknownInst then 1 else 0)

def knownFieldsAt (pid : Str) (st : ConvState) : Nat :=
  match lookupA pid st.people with
  | none => 0
  | some p => knownFields p

/-- Raw review as consumed by the conversion loop (only the identity-relevant
fields). -/
structure RawReview where
  id : Option Str
  signature : Option Str
  profileId : Option Str
deriving DecidableEq

def anonymousTag : Str := "anonymous_reviewer_".data

/-- Python f-string of a possibly-None value. -/
def pyFormatOpt (o : Option Str) : Str :=
  match o with
  | none => "None".data
  | some s => s

/-- The reviewer-id synthesis of the conversion loop: keep a truthy profile id;
otherwise derive a synthetic id from the signature (segment after the first
"Reviewer_") or, failing that, from the review's own id. -/
def assignedReviewerId (r : RawReview) : Str :=
  match truthy r.profileId with
  | some rid => rid
  | none =>
    match r.signature with
    | some sg =>
      if ¬sg.isEmpty ∧ containsSub "Reviewer_".data sg then
        anonymousTag ++ (splitStr "Reviewer_".data sg).getD 1 []
      else anonymousTag ++ pyFormatOpt r.id
    | none => anonymousTag ++ pyFormatOpt r.id

structure CleanReview where
  reviewer_id : Str
deriving DecidableEq

def cleanReviewOf (r : RawReview) : CleanReview := ⟨assignedReviewerId r⟩

end Convert

/-! ### extral_analysis/anomaly_detection.py : submission anomalies, reviewer
aggregation, ranked truncation -/

namespace Anomaly

open ICLR Convert

def meanQ (l : List ℚ) : ℚ := l.sum / l.length

/-- Population variance (square of np.std with ddof=0). -/
def popVar (l : List ℚ) : ℚ :=
  (l.map (fun x => (x - meanQ l) ^ 2)).sum / l.length

/-- A review as seen by detect_submission_anomalies (only rating matters for
the controversial flag). -/
structure SubReview where
  rating : Option ℚ
deriving DecidableEq

def submissionRatings (reviews : List SubReview) : List ℚ :=
  reviews.filterMap SubReview.rating

/-- rating_std of the source as a variance:
np.std(ratings) if len(ratings) > 1 else 0, squared.  Comparisons with a
threshold t on the std are rendered as comparisons with t^2 on this value
(std > 2.0 iff variance > 4). -/
def ratingVarOf (ratings : List ℚ) : ℚ :=
  if ratings.length > 1 then popVar ratings else 0

/-- Controversial-paper flag: the submission enters submission_stats only when
it has at least one rating, and is flagged when rating_std > 2.0 (variance > 4)
and num_reviews >= 3. -/
def controversialFlag (reviews : List SubReview) : Bool :=
  let ratings := submissionRatings reviews
  if ratings.isEmpty then false
  else decide (ratingVarOf ratings > 4) && decide (reviews.length ≥ 3)

/-- The reviewer-aggregation loop of detect_reviewer_anomalies skips a review
whose reviewer_id is falsy; this counts the reviews actually aggregated. -/
def aggregatedReviewCount (reviews : List CleanReview) : Nat :=
  (reviews.filter (fun rv => !rv.reviewer_id.isEmpty)).length

/-- The descending-by-key order used by sorted(..., reverse=True). -/
def keyDescRel {α : Type} (key : α → ℚ) : α → α → Prop :=
  fun a b => key b ≤ key a

instance {α : Type} (key : α → ℚ) : DecidableRel (keyDescRel key) :=
  fun _ _ => inferInstanceAs (Decidable (_ ≤ _))

instance {α : Type} (key : α → ℚ) : IsTotal α (keyDescRel key) :=
  ⟨fun a b => (le_total (key b) (key a)).imp id id⟩

instance {α : Type} (key : α → ℚ) : IsTrans α (keyDescRel key) :=
  ⟨fun _ _ _ hab hbc => le_trans hbc hab⟩

/-- Python sorted(l, key=key, reverse=True): stable descending sort.  Mathlib's
insertionSort with the relation (key b <= key a) computes exactly this order:
an element is inserted before the first earlier-sorted element whose key is not
greater, so equal keys keep their input order. -/
def pySortDesc {α : Type} (key : α → ℚ) (l : List α) : List α :=
  List.insertionSort (keyDescRel key) l

/-- A ranked-list entry (anomaly lists, leaderboards). -/
structure RankEntry where
  entity_id : Str
  metric : ℚ
  review_count : Nat
deriving DecidableEq

/-- The ranked/truncated lists of the source:
sorted(entries, key=defining metric, reverse=True)[:n]. -/
def rankedTop (n : Nat) (l : List RankEntry) : List RankEntry :=
  (pySortDesc RankEntry.metric l).take n

end Anomaly

/-! ### extral_analysis/diversity_analysis.py : diversity score, correlation
gate, institution-type classifier -/

namespace Diversity

open ICLR Convert

/-- Per-submission diversity score (analyze_gender_diversity lines 113-118 and
analyze_cultural_diversity lines 243-248 share this shape): cats is the list
of mapped categories of the submission's reviewers, unk the unknown marker
("Unknown" for gender, "Other" for culture).  Returns none when the score is
not computed. -/
def diversityScore (cats : List Str) (unk : Str) : Option ℚ :=
  if cats.length ≥ 2 then
    let known := cats.filter (fun c => c ≠ unk)
    let uniq := known.dedup.length
    if known.length > 0 then
      some ((uniq : ℚ) / (max known.length 1 : Nat))
    else none
  else none

/-- One entry of submission_diversity_data as consumed by
_calculate_diversity_correlation. -/
structure DivEntry where
  diversity_score : ℚ
  avg_rating : Option ℚ
  rating_std : ℚ
  avg_confidence : Option ℚ
  avg_text_length : ℚ
deriving DecidableEq

/-- Covariance-style payload standing in for the Pearson statistic (whether
the statistic is computed is what the analysis guards; its normalization by
the standard deviations involves square roots and is not claimed). -/
def pearsonCov (xs ys : List ℚ) : ℚ :=
  ((xs.zip ys).map (fun p => (p.1 - meanQ xs) * (p.2 - meanQ ys))).sum
  where meanQ (l : List ℚ) : ℚ := l.sum / l.length

structure CorrResult where
  rating_correlation : Option ℚ
  consistency_correlation : Option ℚ
deriving DecidableEq

/-- _calculate_diversity_correlation: a correlation entry is produced exactly
when the two column lengths agree and exceed 10; otherwise that one metric is
omitted and the rest of the result is still produced. -/
def calcDiversityCorrelation (entries : List DivEntry) : CorrResult :=
  let ds := entries.map DivEntry.diversity_score
  let ars := entries.filterMap DivEntry.avg_rating
  let stds := entries.map DivEntry.rating_std
  { rating_correlation :=
      if ds.length = ars.length ∧ ars.length > 10 then
        some (pearsonCov (ds.take ars.length) ars)
      else none
    consistency_correlation :=
      if ds.length = stds.length ∧ stds.length > 10 then
        some (pearsonCov ds stds)
      else none }

/-- analyze_institutional_diversity lines 299-301: binary classifier on the
raw institution name (case-sensitive substring tests). -/
def institutionTypeOf (name : Str) : Str :=
  if containsSub "University".data name || containsSub "College".data name then
    "University".data
  else "Company".data

/-- One entry of the institutions document. -/
structure InstDocEntry where
  institution_name : Option Str
deriving DecidableEq

/-- Python dict assignment m[k] = v (overwrite or append). -/
def dictPut (m : List (Str × Str)) (k v : Str) : List (Str × Str) :=
  if (lookupA k m).isSome then updA k (fun _ => v) m else m ++ [(k, v)]

def buildInstitutionTypeMap (l : List InstDocEntry) : List (Str × Str) :=
  l.foldl
    (fun m e =>
      let nm := e.institution_name.getD []
      dictPut m nm (institutionTypeOf nm))
    []

structure Affiliation where
  institution : Option Str
deriving DecidableEq

/-- analyze_institutional_diversity lines 306-316: a reviewer's institution
type comes from the first listed affiliation, looked up in the institutions
map with default "Unknown"; reviewers without affiliations (or without the
reviewer role) are not mapped. -/
def reviewerInstitutionType (roles : List Str) (affils : List Affiliation)
    (m : List (Str × Str)) : Option Str :=
  if "reviewer".data ∈ roles then
    match affils with
    | [] => none
    | a :: _ => some ((lookupA (a.institution.getD []) m).getD unknownStr)
  else none

end Diversity

/-! ## Helper lemmas -/

namespace Convert

theorem lookupA_updA_self {β : Type} (k : Str) (f : β → β) (m : List (Str × β)) :
    lookupA k (updA k f m) = (lookupA k m).map f := by
  induction m with
  | nil => rfl
  | cons hd tl ih =>
    obtain ⟨k', v⟩ := hd
    by_cases h : k = k' <;> simp [lookupA, updA, h, ih]

theorem lookupA_updA_ne {β : Type} {k k' : Str} (f : β → β) (m : List (Str × β))
    (h : k ≠ k') : lookupA k (updA k' f m) = lookupA k m := by
  induction m with
  | nil => rfl
  | cons hd tl ih =>
    obtain ⟨a, v⟩ := hd
    by_cases h1 : k' = a
    · subst h1
      simp [lookupA, updA, h]
    · by_cases h2 : k = a <;> simp [lookupA, updA, h1, h2, ih]

theorem lookupA_append_of_some {β : Type} {k : Str} {w : β} {m : List (Str × β)}
    (l : List (Str × β)) (h : lookupA k m = some w) :
    lookupA k (m ++ l) = some w := by
  induction m with
  | nil => simp [lookupA] at h
  | cons hd tl ih =>
    obtain ⟨a, v⟩ := hd
    by_cases h2 : k = a <;> simp_all [lookupA]

theorem lookupA_append_of_none {β : Type} {k : Str} {m : List (Str × β)}
    (l : List (Str × β)) (h : lookupA k m = none) :
    lookupA k (m ++ l) = lookupA k l := by
  induction m with
  | nil => rfl
  | cons hd tl ih =>
    obtain ⟨a, v⟩ := hd
    by_cases h2 : k = a <;> simp_all [lookupA]

theorem mergePerson_nationality (p : PersonRec) (i c r : Str) :
    (mergePerson p i c r).nationality =
      if p.nationality = unknownStr ∧ c ≠ unknownStr then c else p.nationality := by
  simp only [mergePerson]
  split <;> split <;> (try simp_all) <;> split <;> (first | rfl | simp_all)

theorem mergePerson_institution (p : PersonRec) (i c r : Str) :
    (mergePerson p i c r).institution =
      if (¬i.isEmpty = true ∧ i ≠ unknownInst) ∧ p.institution = unknownInst then i
      else p.institution := by
  simp only [mergePerson]
  split <;> split <;> (try simp_all) <;> split <;> (first | rfl | simp_all)

end Convert

namespace Diversity

open Convert

theorem institutionTypeOf_cases (name : Str) :
    institutionTypeOf name = "University".data ∨
      institutionTypeOf name = "Company".data := by
  unfold institutionTypeOf
  split <;> simp

theorem lookupA_dictPut {k k' v : Str} {m : List (Str × Str)} {w : Str}
    (h : lookupA k (dictPut m k' v) = some w) :
    w = v ∨ lookupA k m = some w := by
  unfold dictPut at h
  by_cases hs : (lookupA k' m).isSome
  · rw [if_pos hs] at h
    by_cases hk : k = k'
    · subst hk
      rw [lookupA_updA_self] at h
      rcases h2 : lookupA k m with _ | u
      · simp [h2] at h
      · rw [h2] at h
        simp at h
        exact Or.inl h.symm
    · rw [lookupA_updA_ne _ _ hk] at h
      exact Or.inr h
  · rw [if_neg hs] at h
    rcases h2 : lookupA k m with _ | u
    · rw [lookupA_append_of_none _ h2] at h
      by_cases hk : k = k' <;> simp [lookupA, hk] at h
      · exact Or.inl h.symm
    · rw [lookupA_append_of_some _ h2] at h
      exact Or.inr h

theorem instTypeMap_values (l : List InstDocEntry) :
    ∀ (m : List (Str × Str)),
      (∀ k w, lookupA k m = some w →
        w = "University".data ∨ w = "Company".data) →
      ∀ k w,
        lookupA k
            (l.foldl
              (fun m e =>
                dictPut m (e.institution_name.getD [])
                  (institutionTypeOf (e.institution_name.getD []))) m) =
          some w →
        w = "University".data ∨ w = "Company".data := by
  induction l with
  | nil => exact fun m hm => hm
  | cons e tl ih =>
    intro m hm k w
    simp only [List.foldl_cons]
    refine ih _ (fun k' w' h' => ?_) k w
    rcases lookupA_dictPut h' with h' | h'
    · rw [h']
      exact institutionTypeOf_cases _
    · exact hm k' w' h'

end Diversity

/-! ## Claim theorems -/

open ICLR Convert Enrich Anomaly Diversity in
/-- Claim C6: a submission is flagged controversial iff the population
standard deviation of its ratings is strictly greater than 2.0 (equivalently
the population variance exceeds 4) and it has at least 3 reviews; a variance
of exactly 4 (std exactly 2.0) is never flagged. -/
theorem controversial_flag_iff (reviews : List SubReview) :
    (controversialFlag reviews = true ↔
      4 < popVar (submissionRatings reviews) ∧ 3 ≤ reviews.length) ∧
    (popVar (submissionRatings reviews) = 4 → controversialFlag reviews = false) := by
  have hnil : popVar [] = 0 := by simp [popVar, meanQ]
  have hone : ∀ x : ℚ, popVar [x] = 0 := by intro x; simp [popVar, meanQ]
  have hmain : controversialFlag reviews = true ↔
      4 < popVar (submissionRatings reviews) ∧ 3 ≤ reviews.length := by
    unfold controversialFlag ratingVarOf
    rcases hr : submissionRatings reviews with _ | ⟨x, _ | ⟨y, tl⟩⟩
    · simp [hnil]
    · simp [hone]
    · simp only [List.isEmpty_cons, List.length_cons, Bool.false_eq_true,
        if_false, Bool.and_eq_true, decide_eq_true_eq]
      constructor
      · rintro ⟨h1, h2⟩
        rw [if_pos (by omega)] at h1
        exact ⟨h1, h2⟩
      · rintro ⟨h1, h2⟩
        exact ⟨by rw [if_pos (by omega)]; exact h1, h2⟩
  refine ⟨hmain, fun hv => ?_⟩
  cases hc : controversialFlag reviews
  · rfl
  · have := (hmain.mp hc).1
    rw [hv] at this
    exact absurd this (lt_irrefl 4)

open ICLR Convert Anomaly in
/-- Witness for C6: four ratings [2,2,6,6] have population variance exactly 4
(std exactly 2.0) and the submission is not flagged. -/
theorem controversial_flag_iff_witness :
    controversialFlag
        [⟨some 2⟩, ⟨some 2⟩, ⟨some 6⟩, ⟨some 6⟩] = false :=
  (controversial_flag_iff [⟨some 2⟩, ⟨some 2⟩, ⟨some 6⟩, ⟨some 6⟩]).2
    (by norm_num [popVar, meanQ, submissionRatings, List.filterMap_cons])

open ICLR Convert Diversity in
/-- Counterexample for C7: a panel with mapped categories
[East_Asian, Other] has only one reviewer with a known category, yet the
diversity score IS computed (value 1), contradicting the claim that the score
is computed only when at least 2 reviewers have known categories. -/
theorem diversity_score_counterexample :
    (diversityScore ["East_Asian".data, "Other".data] "Other".data).isSome =
        true ∧
      (["East_Asian".data, "Other".data].filter
          (fun c => c ≠ "Other".data)).length = 1 := by
  decide

open ICLR Convert Diversity in
/-- Claim C7 (amended): the diversity score is computed exactly when the
submission has at least 2 reviewers with a mapped category and at least 1 with
a known (non-unknown-marker) category; its value is the number of distinct
known categories divided by the number of reviewers with known categories, as
in the 2/3 and 1/2 examples. -/
theorem diversity_score_value (cats : List Str) (unk : Str) :
    ((diversityScore cats unk).isSome = true ↔
      2 ≤ cats.length ∧ 0 < (cats.filter (fun c => c ≠ unk)).length) ∧
    (∀ q, diversityScore cats unk = some q →
      q = ((cats.filter (fun c => c ≠ unk)).dedup.length : ℚ) /
          ((cats.filter (fun c => c ≠ unk)).length : ℚ)) ∧
    diversityScore ["East_Asian".data, "Western".data, "East_Asian".data]
        "Other".data = some (2 / 3) ∧
    diversityScore ["East_Asian".data, "East_Asian".data] "Other".data =
      some (1 / 2) := by
  refine ⟨?_, ?_, by simp +decide [diversityScore], by simp +decide [diversityScore]⟩
  · unfold diversityScore
    split_ifs <;> simp_all
  · intro q hq
    simp only [diversityScore] at hq
    split_ifs at hq with h1 h2
    · have hmax : max (cats.filter (fun c => c ≠ unk)).length 1 =
          (cats.filter (fun c => c ≠ unk)).length := Nat.max_eq_left h2
      rw [hmax] at hq
      exact (Option.some_injective _ hq).symm

open ICLR Convert Diversity in
/-- Witness for C7: a concrete panel [East_Asian, Western, East_Asian] gets
score 2/3 through the amended formula. -/
theorem diversity_score_value_witness :
    diversityScore ["East_Asian".data, "Western".data, "East_Asian".data]
        "Other".data =
      some
        (((["East_Asian".data, "Western".data, "East_Asian".data].filter
              (fun c => c ≠ "Other".data)).dedup.length : ℚ) /
          ((["East_Asian".data, "Western".data, "East_Asian".data].filter
              (fun c => c ≠ "Other".data)).length : ℚ)) := by
  have h :=
    (diversity_score_value
        ["East_Asian".data, "Western".data, "East_Asian".data]
        "Other".data).2.1
  have hv :
      diversityScore ["East_Asian".data, "Western".data, "East_Asian".data]
          "Other".data = some (2 / 3) := by simp +decide [diversityScore]
  rw [hv]
  rw [h (2 / 3) hv]

open ICLR Convert Diversity in
/-- Counterexample for C8: with exactly 10 paired samples (all lengths
matching), the rating correlation is NOT computed, contradicting the claim
that it is computed whenever at least 10 paired samples exist. -/
theorem diversity_correlation_counterexample :
    (calcDiversityCorrelation
        (List.replicate 10 ⟨1, some 5, 0, none, 100⟩)).rating_correlation =
        none ∧
      ((List.replicate 10
            (⟨1, some 5, 0, none, 100⟩ : DivEntry)).map
          DivEntry.diversity_score).length =
        ((List.replicate 10
              (⟨1, some 5, 0, none, 100⟩ : DivEntry)).filterMap
            DivEntry.avg_rating).length ∧
      ((List.replicate 10
            (⟨1, some 5, 0, none, 100⟩ : DivEntry)).filterMap
          DivEntry.avg_rating).length = 10 := by
  decide

open ICLR Convert Diversity in
/-- Claim C8 (amended): a Pearson correlation entry is produced exactly when
the two aligned columns have equal length and MORE than 10 paired samples
(i.e. at least 11); on a length mismatch that one metric is omitted (none)
while the other entry of the result is still produced, and the function is
total (never aborts). -/
theorem diversity_correlation_gate (entries : List Diversity.DivEntry) :
    ((calcDiversityCorrelation entries).rating_correlation.isSome = true ↔
      ((entries.map DivEntry.diversity_score).length =
          (entries.filterMap DivEntry.avg_rating).length ∧
        10 < (entries.filterMap DivEntry.avg_rating).length)) ∧
    ((entries.map DivEntry.diversity_score).length ≠
        (entries.filterMap DivEntry.avg_rating).length →
      (calcDiversityCorrelation entries).rating_correlation = none) ∧
    ((calcDiversityCorrelation entries).consistency_correlation.isSome = true ↔
      10 < entries.length) := by
  refine ⟨?_, ?_, ?_⟩ <;> simp only [calcDiversityCorrelation]
  · split_ifs <;> simp_all
  · intro hne
    rw [if_neg (fun h => hne h.1)]
  · split_ifs with h <;> simp_all

open ICLR Convert Diversity in
/-- Witness for C8: a column-length mismatch (one entry lacks avg_rating)
makes the rating correlation come out as not computed. -/
theorem diversity_correlation_gate_witness :
    (calcDiversityCorrelation
        (List.replicate 11 ⟨1, some 5, 0, none, 100⟩ ++
          [⟨1, none, 0, none, 100⟩])).rating_correlation = none :=
  (diversity_correlation_gate
      (List.replicate 11 ⟨1, some 5, 0, none, 100⟩ ++
        [⟨1, none, 0, none, 100⟩])).2.1
    (by decide)

open ICLR Convert Diversity in
/-- Claim C10: the institution-type classifier is binary — "University"
exactly when the name contains the case-sensitive substring "University" or
"College", otherwise "Company", and "Other" is never produced; every value
stored in the institution-type map is one of the two; a reviewer's type comes
from the first listed affiliation and defaults to "Unknown" when the
affiliation name is absent from the institutions document. -/
theorem institution_type_binary :
    (∀ name : Str,
      (institutionTypeOf name = "University".data ↔
        (containsSub "University".data name = true ∨
          containsSub "College".data name = true)) ∧
      institutionTypeOf name ≠ "Other".data) ∧
    (∀ (l : List InstDocEntry) (k w : Str),
      lookupA k (buildInstitutionTypeMap l) = some w →
      w = "University".data ∨ w = "Company".data) ∧
    (∀ (roles : List Str) (a : Affiliation) (rest : List Affiliation)
        (m : List (Str × Str)), "reviewer".data ∈ roles →
      reviewerInstitutionType roles (a :: rest) m =
        some ((lookupA (a.institution.getD []) m).getD unknownStr)) ∧
    (∀ (roles : List Str) (a : Affiliation) (rest : List Affiliation)
        (m : List (Str × Str)), "reviewer".data ∈ roles →
      lookupA (a.institution.getD []) m = none →
      reviewerInstitutionType roles (a :: rest) m = some unknownStr) ∧
    institutionTypeOf "university of lowercase".data = "Company".data := by
  refine ⟨?_, ?_, ?_, ?_, by decide⟩
  · intro name
    refine ⟨?_, ?_⟩
    · unfold institutionTypeOf
      split_ifs with h
      · exact ⟨fun _ => (Bool.or_eq_true _ _).mp h, fun _ => rfl⟩
      · exact ⟨fun habs => absurd habs (by decide),
          fun hor => absurd ((Bool.or_eq_true _ _).mpr hor) h⟩
    · unfold institutionTypeOf
      split_ifs <;> decide
  · intro l k w h
    exact instTypeMap_values l []
      (fun k' w' h' => by simp [lookupA] at h') k w h
  · intro roles a rest m hm
    simp [reviewerInstitutionType, hm]
  · intro roles a rest m hm hl
    simp [reviewerInstitutionType, hm, hl]

open ICLR Convert Diversity in
/-- Witness for C10: a reviewer whose first affiliation is absent from the
institutions document gets type "Unknown". -/
theorem institution_type_binary_witness :
    reviewerInstitutionType ["reviewer".data]
        [⟨some "Atlantis Institute".data⟩] [] = some unknownStr :=
  institution_type_binary.2.2.2.1 ["reviewer".data]
    ⟨some "Atlantis Institute".data⟩ [] [] (by simp) rfl

namespace Anomaly

theorem filter_orderedInsert {α : Type} (key : α → ℚ) (v : ℚ) (x : α)
    (l : List α) :
    (List.orderedInsert (keyDescRel key) x l).filter
        (fun y => decide (key y = v)) =
      if key x = v then
        x :: l.filter (fun y => decide (key y = v))
      else l.filter (fun y => decide (key y = v)) := by
  induction l with
  | nil =>
    simp only [List.orderedInsert, List.filter_cons, List.filter_nil]
    split_ifs <;> simp_all
  | cons y ys ih =>
    by_cases hr : keyDescRel key x y
    · rw [List.orderedInsert, if_pos hr, List.filter_cons]
      split_ifs <;> simp_all
    · rw [List.orderedInsert, if_neg hr]
      have hlt : key x < key y := lt_of_not_le hr
      by_cases hxv : key x = v
      · have hyv : ¬key y = v := fun h =>
          absurd hlt (by rw [hxv, h]; exact lt_irrefl v)
        simp [List.filter_cons, hyv, ih, hxv]
      · simp [List.filter_cons, ih, hxv]

theorem filter_pySortDesc {α : Type} (key : α → ℚ) (v : ℚ) (l : List α) :
    (pySortDesc key l).filter (fun y => decide (key y = v)) =
      l.filter (fun y => decide (key y = v)) := by
  induction l with
  | nil => rfl
  | cons x xs ih =>
    simp only [pySortDesc, List.insertionSort] at *
    rw [filter_orderedInsert, List.filter_cons]
    split_ifs <;> simp_all

end Anomaly

open ICLR Convert Anomaly in
/-- Counterexample for C9: two entries with equal primary metric keep their
input order under the source's sorted(key, reverse=True), even though the
later entry has the larger review count (and the smaller identifier): no
count-descending / id-ascending tie-break is applied. -/
theorem ranked_tiebreak_counterexample :
    rankedTop 10 [⟨"b".data, 5, 2⟩, ⟨"a".data, 5, 7⟩] =
        [⟨"b".data, 5, 2⟩, ⟨"a".data, 5, 7⟩] ∧
      (⟨"b".data, 5, 2⟩ : RankEntry).metric =
        (⟨"a".data, 5, 7⟩ : RankEntry).metric ∧
      (⟨"b".data, 5, 2⟩ : RankEntry).review_count <
        (⟨"a".data, 5, 7⟩ : RankEntry).review_count := by
  decide

open ICLR Convert Anomaly in
/-- Claim C9 (amended): every ranked/truncated list is sorted by its defining
metric in descending order by a stable sort: entries with equal primary key
retain their relative input order (so output is deterministic for identical
inputs), and no explicit review-count or identifier tie-break is applied. -/
theorem ranked_lists_stable_desc :
    (∀ l : List RankEntry,
      List.Sorted (keyDescRel RankEntry.metric) (pySortDesc RankEntry.metric l)) ∧
    (∀ (n : Nat) (l : List RankEntry),
      List.Sorted (keyDescRel RankEntry.metric) (rankedTop n l)) ∧
    (∀ (l : List RankEntry) (v : ℚ),
      (pySortDesc RankEntry.metric l).filter (fun e => decide (e.metric = v)) =
        l.filter (fun e => decide (e.metric = v))) ∧
    (∀ l : List RankEntry, (pySortDesc RankEntry.metric l).Perm l) := by
  refine ⟨?_, ?_, ?_, ?_⟩
  · intro l
    exact List.sorted_insertionSort _ l
  · intro n l
    exact List.Pairwise.sublist (List.take_sublist n _)
      (List.sorted_insertionSort _ l)
  · intro l v
    exact filter_pySortDesc RankEntry.metric v l
  · intro l
    exact List.perm_insertionSort _ l

open ICLR Convert Enrich in
/-- Counterexample for C5: normalize_institution returns None (not
"Unknown Institution") on the empty string, returns the EMPTY string on
"zzz," (comma fallback with an empty last segment), and normalize_country
returns the empty string on a whitespace-only input. -/
theorem normalization_fallback_counterexample :
    normInstL [] = none ∧
      normInstL "zzz,".data = some [] ∧
      normCountryL (some " ".data) = [] := by
  refine ⟨rfl, by decide, by decide⟩

open ICLR Convert Enrich in
/-- Claim C5 (amended): normalize_country maps None and "" to "Unknown" (but
whitespace-only strings come back empty); normalize_institution is total and
returns None exactly on inputs that are empty or whitespace-effectively-empty
after stripping and '&' replacement (it never defaults to
"Unknown Institution" itself, and its fallback can return the empty string);
the "Unknown Institution" default is applied by the caller process_person via
the Python `or` idiom. -/
theorem normalization_fallback_totality :
    (normCountryL none = unknownStr ∧ normCountryL (some []) = unknownStr) ∧
    (∀ name : Str,
      (normInstL name).isNone =
        (name.isEmpty || (replaceSub ['&'] " and ".data (trimL name)).isEmpty)) ∧
    (pyOr none unknownInst = unknownInst ∧
      ∀ s : Str, pyOr (some s) unknownInst = if s.isEmpty then unknownInst else s) := by
  refine ⟨⟨rfl, rfl⟩, ?_, rfl, fun s => rfl⟩
  intro name
  unfold normInstL
  cases h0 : name.isEmpty
  · rw [if_neg (by decide : ¬(false = true))]
    cases h1 : (replaceSub ['&'] " and ".data (trimL name)).isEmpty
    · rw [if_neg (by decide : ¬(false = true))]
      rcases hf : findRule instRules (rawOf name) with _ | r
      · split_ifs <;> rfl
      · rfl
    · rw [if_pos rfl]
      rfl
  · rw [if_pos rfl]
    rfl

open ICLR Enrich in
/-- Counterexample for C3: normalize_institution is not idempotent — the
input "zzz," normalizes to the empty string via the comma fallback, and the
empty string renormalizes to None. -/
theorem normalize_idempotent_counterexample :
    normInstOpt (normInstOpt (some "zzz,".data)) ≠
      normInstOpt (some "zzz,".data) := by
  decide

set_option maxHeartbeats 16000000 in
set_option maxRecDepth 100000 in
open ICLR in
theorem normInstFixedAux1 :
    Enrich.normInstL "Tsinghua University".data = some "Tsinghua University".data := by rfl

set_option maxHeartbeats 16000000 in
set_option maxRecDepth 100000 in
open ICLR in
theorem normInstFixedAux2 :
    Enrich.normInstL "Lawrence Berkeley National Laboratory".data = some "Lawrence Berkeley National Laboratory".data := by rfl

set_option maxHeartbeats 16000000 in
set_option maxRecDepth 100000 in
open ICLR in
theorem normInstFixedAux3 :
    Enrich.normInstL "University of California, Berkeley".data = some "University of California, Berkeley".data := by rfl

set_option maxHeartbeats 16000000 in
set_option maxRecDepth 100000 in
open ICLR in
theorem normInstFixedAux4 :
    Enrich.normInstL "Hong Kong University of Science and Technology (Guangzhou)".data = some "Hong Kong University of Science and Technology (Guangzhou)".data := by rfl

set_option maxHeartbeats 16000000 in
set_option maxRecDepth 100000 in
open ICLR in
theorem normInstFixedAux5 :
    Enrich.normInstL "Hong Kong University of Science and Technology".data = some "Hong Kong University of Science and Technology".data := by rfl

set_option maxHeartbeats 16000000 in
set_option maxRecDepth 100000 in
open ICLR in
theorem normInstFixedAux6 :
    Enrich.normInstL "The Chinese University of Hong Kong, Shenzhen".data = some "The Chinese University of Hong Kong, Shenzhen".data := by rfl

set_option maxHeartbeats 16000000 in
set_option maxRecDepth 100000 in
open ICLR in
theorem normInstFixedAux7 :
    Enrich.normInstL "The Chinese University of Hong Kong".data = some "The Chinese University of Hong Kong".data := by rfl

set_option maxHeartbeats 16000000 in
set_option maxRecDepth 100000 in
open ICLR in
theorem normInstFixedAux8 :
    Enrich.normInstL "Ludwig Maximilian University of Munich".data = some "Ludwig Maximilian University of Munich".data := by rfl

set_option maxHeartbeats 16000000 in
set_option maxRecDepth 100000 in
open ICLR in
theorem normInstFixedAux9 :
    Enrich.normInstL "Technical University of Munich".data = some "Technical University of Munich".data := by rfl

set_option maxHeartbeats 16000000 in
set_option maxRecDepth 100000 in
open ICLR in
theorem normInstFixedAux10 :
    Enrich.normInstL "Karlsruhe Institute of Technology".data = some "Karlsruhe Institute of Technology".data := by rfl

set_option maxHeartbeats 16000000 in
set_option maxRecDepth 100000 in
open ICLR in
theorem normInstFixedAux11 :
    Enrich.normInstL "ETH Zurich".data = some "ETH Zurich".data := by rfl

set_option maxHeartbeats 16000000 in
set_option maxRecDepth 100000 in
open ICLR in
theorem normInstFixedAux12 :
    Enrich.normInstL "EPFL".data = some "EPFL".data := by rfl

set_option maxHeartbeats 16000000 in
set_option maxRecDepth 100000 in
open ICLR in
theorem normInstFixedAux13 :
    Enrich.normInstL "Sorbonne University".data = some "Sorbonne University".data := by rfl

set_option maxHeartbeats 16000000 in
set_option maxRecDepth 100000 in
open ICLR in
theorem normInstFixedAux14 :
    Enrich.normInstL "Imperial College London".data = some "Imperial College London".data := by rfl

set_option maxHeartbeats 16000000 in
set_option maxRecDepth 100000 in
open ICLR in
theorem normInstFixedAux15 :
    Enrich.normInstL "University College London".data = some "University College London".data := by rfl

set_option maxHeartbeats 16000000 in
set_option maxRecDepth 100000 in
open ICLR in
theorem normInstFixedAux16 :
    Enrich.normInstL "Carnegie Mellon University".data = some "Carnegie Mellon University".data := by rfl

set_option maxHeartbeats 16000000 in
set_option maxRecDepth 100000 in
open ICLR in
theorem normInstFixedAux17 :
    Enrich.normInstL "Massachusetts Institute of Technology".data = some "Massachusetts Institute of Technology".data := by rfl

set_option maxHeartbeats 16000000 in
set_option maxRecDepth 100000 in
open ICLR in
theorem normInstFixedAux18 :
    Enrich.normInstL "University of Illinois Urbana-Champaign".data = some "University of Illinois Urbana-Champaign".data := by rfl

set_option maxHeartbeats 16000000 in
set_option maxRecDepth 100000 in
open ICLR in
theorem normInstFixedAux19 :
    Enrich.normInstL "University of California, San Diego".data = some "University of California, San Diego".data := by rfl

set_option maxHeartbeats 16000000 in
set_option maxRecDepth 100000 in
open ICLR in
theorem normInstFixedAux20 :
    Enrich.normInstL "University of California, Los Angeles".data = some "University of California, Los Angeles".data := by rfl

set_option maxHeartbeats 16000000 in
set_option maxRecDepth 100000 in
open ICLR in
theorem normInstFixedAux21 :
    Enrich.normInstL "University of Southern California".data = some "University of Southern California".data := by rfl

set_option maxHeartbeats 16000000 in
set_option maxRecDepth 100000 in
open ICLR in
theorem normInstFixedAux22 :
    Enrich.normInstL "New York University".data = some "New York University".data := by rfl

set_option maxHeartbeats 16000000 in
set_option maxRecDepth 100000 in
open ICLR in
theorem normInstFixedAux23 :
    Enrich.normInstL "Georgia Institute of Technology".data = some "Georgia Institute of Technology".data := by rfl

set_option maxHeartbeats 16000000 in
set_option maxRecDepth 100000 in
open ICLR in
theorem normInstFixedAux24 :
    Enrich.normInstL "University of Washington".data = some "University of Washington".data := by rfl

set_option maxHeartbeats 16000000 in
set_option maxRecDepth 100000 in
open ICLR in
theorem normInstFixedAux25 :
    Enrich.normInstL "California Institute of Technology".data = some "California Institute of Technology".data := by rfl

set_option maxHeartbeats 16000000 in
set_option maxRecDepth 100000 in
open ICLR in
theorem normInstFixedAux26 :
    Enrich.normInstL "University of Texas at Austin".data = some "University of Texas at Austin".data := by rfl

set_option maxHeartbeats 16000000 in
set_option maxRecDepth 100000 in
open ICLR in
theorem normInstFixedAux27 :
    Enrich.normInstL "University of Michigan".data = some "University of Michigan".data := by rfl

set_option maxHeartbeats 16000000 in
set_option maxRecDepth 100000 in
open ICLR in
theorem normInstFixedAux28 :
    Enrich.normInstL "Johns Hopkins University".data = some "Johns Hopkins University".data := by rfl

set_option maxHeartbeats 16000000 in
set_option maxRecDepth 100000 in
open ICLR in
theorem normInstFixedAux29 :
    Enrich.normInstL "Stanford University".data = some "Stanford University".data := by rfl

set_option maxHeartbeats 16000000 in
set_option maxRecDepth 100000 in
open ICLR in
theorem normInstFixedAux30 :
    Enrich.normInstL "Princeton University".data = some "Princeton University".data := by rfl

set_option maxHeartbeats 16000000 in
set_option maxRecDepth 100000 in
open ICLR in
theorem normInstFixedAux31 :
    Enrich.normInstL "Harvard University".data = some "Harvard University".data := by rfl

set_option maxHeartbeats 16000000 in
set_option maxRecDepth 100000 in
open ICLR in
theorem normInstFixedAux32 :
    Enrich.normInstL "Yale University".data = some "Yale University".data := by rfl

set_option maxHeartbeats 16000000 in
set_option maxRecDepth 100000 in
open ICLR in
theorem normInstFixedAux33 :
    Enrich.normInstL "Cornell University".data = some "Cornell University".data := by rfl

set_option maxHeartbeats 16000000 in
set_option maxRecDepth 100000 in
open ICLR in
theorem normInstFixedAux34 :
    Enrich.normInstL "Columbia University".data = some "Columbia University".data := by rfl

set_option maxHeartbeats 16000000 in
set_option maxRecDepth 100000 in
open ICLR in
theorem normInstFixedAux35 :
    Enrich.normInstL "Peking University".data = some "Peking University".data := by rfl

set_option maxHeartbeats 16000000 in
set_option maxRecDepth 100000 in
open ICLR in
theorem normInstFixedAux36 :
    Enrich.normInstL "Shanghai Jiao Tong University".data = some "Shanghai Jiao Tong University".data := by rfl

set_option maxHeartbeats 16000000 in
set_option maxRecDepth 100000 in
open ICLR in
theorem normInstFixedAux37 :
    Enrich.normInstL "Fudan University".data = some "Fudan University".data := by rfl

set_option maxHeartbeats 16000000 in
set_option maxRecDepth 100000 in
open ICLR in
theorem normInstFixedAux38 :
    Enrich.normInstL "Zhejiang University".data = some "Zhejiang University".data := by rfl

set_option maxHeartbeats 16000000 in
set_option maxRecDepth 100000 in
open ICLR in
theorem normInstFixedAux39 :
    Enrich.normInstL "University of Science and Technology of China".data = some "University of Science and Technology of China".data := by rfl

set_option maxHeartbeats 16000000 in
set_option maxRecDepth 100000 in
open ICLR in
theorem normInstFixedAux40 :
    Enrich.normInstL "Nanjing University".data = some "Nanjing University".data := by rfl

set_option maxHeartbeats 16000000 in
set_option maxRecDepth 100000 in
open ICLR in
theorem normInstFixedAux41 :
    Enrich.normInstL "Sun Yat-sen University".data = some "Sun Yat-sen University".data := by rfl

set_option maxHeartbeats 16000000 in
set_option maxRecDepth 100000 in
open ICLR in
theorem normInstFixedAux42 :
    Enrich.normInstL "Harbin Institute of Technology".data = some "Harbin Institute of Technology".data := by rfl

set_option maxHeartbeats 16000000 in
set_option maxRecDepth 100000 in
open ICLR in
theorem normInstFixedAux43 :
    Enrich.normInstL "Beihang University".data = some "Beihang University".data := by rfl

set_option maxHeartbeats 16000000 in
set_option maxRecDepth 100000 in
open ICLR in
theorem normInstFixedAux44 :
    Enrich.normInstL "University of Chinese Academy of Sciences".data = some "University of Chinese Academy of Sciences".data := by rfl

set_option maxHeartbeats 16000000 in
set_option maxRecDepth 100000 in
open ICLR in
theorem normInstFixedAux45 :
    Enrich.normInstL "Chinese Academy of Sciences".data = some "Chinese Academy of Sciences".data := by rfl

set_option maxHeartbeats 16000000 in
set_option maxRecDepth 100000 in
open ICLR in
theorem normInstFixedAux46 :
    Enrich.normInstL "Korea Advanced Institute of Science and Technology".data = some "Korea Advanced Institute of Science and Technology".data := by rfl

set_option maxHeartbeats 16000000 in
set_option maxRecDepth 100000 in
open ICLR in
theorem normInstFixedAux47 :
    Enrich.normInstL "Seoul National University".data = some "Seoul National University".data := by rfl

set_option maxHeartbeats 16000000 in
set_option maxRecDepth 100000 in
open ICLR in
theorem normInstFixedAux48 :
    Enrich.normInstL "Pohang University of Science and Technology".data = some "Pohang University of Science and Technology".data := by rfl

set_option maxHeartbeats 16000000 in
set_option maxRecDepth 100000 in
open ICLR in
theorem normInstFixedAux49 :
    Enrich.normInstL "National University of Singapore".data = some "National University of Singapore".data := by rfl

set_option maxHeartbeats 16000000 in
set_option maxRecDepth 100000 in
open ICLR in
theorem normInstFixedAux50 :
    Enrich.normInstL "Nanyang Technological University".data = some "Nanyang Technological University".data := by rfl

set_option maxHeartbeats 16000000 in
set_option maxRecDepth 100000 in
open ICLR in
theorem normInstFixedAux51 :
    Enrich.normInstL "The University of Tokyo".data = some "The University of Tokyo".data := by rfl

set_option maxHeartbeats 16000000 in
set_option maxRecDepth 100000 in
open ICLR in
theorem normInstFixedAux52 :
    Enrich.normInstL "Google DeepMind".data = some "Google DeepMind".data := by rfl

set_option maxHeartbeats 16000000 in
set_option maxRecDepth 100000 in
open ICLR in
theorem normInstFixedAux53 :
    Enrich.normInstL "Meta".data = some "Meta".data := by rfl

set_option maxHeartbeats 16000000 in
set_option maxRecDepth 100000 in
open ICLR in
theorem normInstFixedAux54 :
    Enrich.normInstL "Microsoft".data = some "Microsoft".data := by rfl

set_option maxHeartbeats 16000000 in
set_option maxRecDepth 100000 in
open ICLR in
theorem normInstFixedAux55 :
    Enrich.normInstL "NVIDIA".data = some "NVIDIA".data := by rfl

set_option maxHeartbeats 16000000 in
set_option maxRecDepth 100000 in
open ICLR in
theorem normInstFixedAux56 :
    Enrich.normInstL "ByteDance".data = some "ByteDance".data := by rfl

set_option maxHeartbeats 16000000 in
set_option maxRecDepth 100000 in
open ICLR in
theorem normInstFixedAux57 :
    Enrich.normInstL "Tencent".data = some "Tencent".data := by rfl

set_option maxHeartbeats 16000000 in
set_option maxRecDepth 100000 in
open ICLR in
theorem normInstFixedAux58 :
    Enrich.normInstL "Alibaba Group".data = some "Alibaba Group".data := by rfl

set_option maxHeartbeats 16000000 in
set_option maxRecDepth 100000 in
open ICLR in
theorem normInstFixedAux59 :
    Enrich.normInstL "Baidu".data = some "Baidu".data := by rfl

set_option maxHeartbeats 16000000 in
set_option maxRecDepth 100000 in
open ICLR in
theorem normInstFixedAux60 :
    Enrich.normInstL "Huawei Technologies".data = some "Huawei Technologies".data := by rfl

set_option maxHeartbeats 16000000 in
set_option maxRecDepth 100000 in
open ICLR in
theorem normInstFixedAux61 :
    Enrich.normInstL "Amazon".data = some "Amazon".data := by rfl

set_option maxHeartbeats 16000000 in
set_option maxRecDepth 100000 in
open ICLR in
theorem normInstFixedAux62 :
    Enrich.normInstL "Apple".data = some "Apple".data := by rfl

set_option maxHeartbeats 16000000 in
set_option maxRecDepth 100000 in
open ICLR in
theorem normInstFixedAux63 :
    Enrich.normInstL "Adobe".data = some "Adobe".data := by rfl

set_option maxHeartbeats 16000000 in
set_option maxRecDepth 100000 in
open ICLR in
theorem normInstFixedAux64 :
    Enrich.normInstL "Samsung".data = some "Samsung".data := by rfl

set_option maxHeartbeats 16000000 in
set_option maxRecDepth 100000 in
open ICLR in
theorem normInstFixedAux65 :
    Enrich.normInstL "Sony".data = some "Sony".data := by rfl

set_option maxHeartbeats 16000000 in
set_option maxRecDepth 100000 in
open ICLR in
theorem normInstFixedAux66 :
    Enrich.normInstL "Uber".data = some "Uber".data := by rfl

set_option maxHeartbeats 16000000 in
set_option maxRecDepth 100000 in
open ICLR in
theorem normInstFixedAux67 :
    Enrich.normInstL "OpenAI".data = some "OpenAI".data := by rfl

set_option maxHeartbeats 16000000 in
set_option maxRecDepth 100000 in
open ICLR in
theorem normInstFixedAux68 :
    Enrich.normInstL "Salesforce".data = some "Salesforce".data := by rfl

set_option maxHeartbeats 16000000 in
set_option maxRecDepth 100000 in
open ICLR in
theorem normInstFixedAux69 :
    Enrich.normInstL "IBM".data = some "IBM".data := by rfl

set_option maxHeartbeats 16000000 in
set_option maxRecDepth 100000 in
open ICLR in
theorem normInstFixedAux70 :
    Enrich.normInstL "Intel".data = some "Intel".data := by rfl

set_option maxHeartbeats 16000000 in
set_option maxRecDepth 100000 in
open ICLR in
theorem normInstFixedAux71 :
    Enrich.normInstL "Qualcomm".data = some "Qualcomm".data := by rfl

open ICLR Enrich in
/-- Claim C3 (amended): every canonical name produced by a RULE match is a
fixed point of normalize_institution (so the function is idempotent on all
rule-matched results); full idempotence fails only through the comma-segment
fallback, which can return a non-fixed-point such as the empty string. -/
theorem normalize_rule_outputs_fixed :
    ∀ p ∈ instRules, normInstL p.2.data = some p.2.data := by
  intro p hp
  simp only [instRules, instRulesRest, List.mem_cons] at hp
  rcases hp with rfl | rfl | rfl | rfl | rfl | rfl | rfl | rfl | rfl | rfl | rfl | rfl | rfl | rfl | rfl | rfl | rfl | rfl | rfl | rfl | rfl | rfl | rfl | rfl | rfl | rfl | rfl | rfl | rfl | rfl | rfl | rfl | rfl | rfl | rfl | rfl | rfl | rfl | rfl | rfl | rfl | rfl | rfl | rfl | rfl | rfl | rfl | rfl | rfl | rfl | rfl | rfl | rfl | rfl | rfl | rfl | rfl | rfl | rfl | rfl | rfl | rfl | rfl | rfl | rfl | rfl | rfl | rfl | rfl | rfl | rfl | rfl | rfl | rfl | rfl | rfl | rfl | rfl | rfl | rfl | rfl | rfl | rfl | rfl | rfl | h
  · exact normInstFixedAux1
  · exact normInstFixedAux2
  · exact normInstFixedAux3
  · exact normInstFixedAux4
  · exact normInstFixedAux5
  · exact normInstFixedAux6
  · exact normInstFixedAux7
  · exact normInstFixedAux8
  · exact normInstFixedAux9
  · exact normInstFixedAux10
  · exact normInstFixedAux11
  · exact normInstFixedAux11
  · exact normInstFixedAux12
  · exact normInstFixedAux13
  · exact normInstFixedAux14
  · exact normInstFixedAux15
  · exact normInstFixedAux16
  · exact normInstFixedAux17
  · exact normInstFixedAux18
  · exact normInstFixedAux18
  · exact normInstFixedAux19
  · exact normInstFixedAux19
  · exact normInstFixedAux20
  · exact normInstFixedAux20
  · exact normInstFixedAux21
  · exact normInstFixedAux21
  · exact normInstFixedAux22
  · exact normInstFixedAux22
  · exact normInstFixedAux23
  · exact normInstFixedAux23
  · exact normInstFixedAux24
  · exact normInstFixedAux24
  · exact normInstFixedAux25
  · exact normInstFixedAux25
  · exact normInstFixedAux26
  · exact normInstFixedAux26
  · exact normInstFixedAux27
  · exact normInstFixedAux27
  · exact normInstFixedAux28
  · exact normInstFixedAux29
  · exact normInstFixedAux30
  · exact normInstFixedAux31
  · exact normInstFixedAux32
  · exact normInstFixedAux33
  · exact normInstFixedAux34
  · exact normInstFixedAux1
  · exact normInstFixedAux35
  · exact normInstFixedAux36
  · exact normInstFixedAux37
  · exact normInstFixedAux38
  · exact normInstFixedAux39
  · exact normInstFixedAux40
  · exact normInstFixedAux41
  · exact normInstFixedAux42
  · exact normInstFixedAux43
  · exact normInstFixedAux44
  · exact normInstFixedAux45
  · exact normInstFixedAux46
  · exact normInstFixedAux47
  · exact normInstFixedAux48
  · exact normInstFixedAux49
  · exact normInstFixedAux49
  · exact normInstFixedAux50
  · exact normInstFixedAux50
  · exact normInstFixedAux51
  · exact normInstFixedAux52
  · exact normInstFixedAux53
  · exact normInstFixedAux54
  · exact normInstFixedAux55
  · exact normInstFixedAux56
  · exact normInstFixedAux57
  · exact normInstFixedAux58
  · exact normInstFixedAux59
  · exact normInstFixedAux60
  · exact normInstFixedAux61
  · exact normInstFixedAux62
  · exact normInstFixedAux63
  · exact normInstFixedAux64
  · exact normInstFixedAux65
  · exact normInstFixedAux66
  · exact normInstFixedAux67
  · exact normInstFixedAux68
  · exact normInstFixedAux69
  · exact normInstFixedAux70
  · exact normInstFixedAux71
  · exact absurd h (List.not_mem_nil p)

open ICLR Enrich in
/-- Witness for C3: the first rule's canonical output "Tsinghua University"
is a fixed point. -/
theorem normalize_rule_outputs_fixed_witness :
    normInstL "Tsinghua University".data = some "Tsinghua University".data :=
  normalize_rule_outputs_fixed (tsinghuaBerkeleyRule, "Tsinghua University")
    (by decide)

namespace Enrich

theorem findRule_cons (re : RE) (out : String) (rs : List (RE × String))
    (raw : Str) :
    findRule ((re, out) :: rs) raw =
      if reMatch re raw then some out else findRule rs raw := rfl

end Enrich

open ICLR Enrich in
/-- Counterexample for C4: "Lawrence Berkeley HKUST Guangzhou" matches both
the campus-specific and the generic HKUST pattern, yet normalizes to
"Lawrence Berkeley National Laboratory" because an earlier rule fires first —
the result is not the campus-specific canonical name. -/
theorem hkust_campus_rule_counterexample :
    reMatch hkustGZRule (rawOf "Lawrence Berkeley HKUST Guangzhou".data) =
        true ∧
      reMatch hkustMainRule
          (rawOf "Lawrence Berkeley HKUST Guangzhou".data) = true ∧
      normInstL "Lawrence Berkeley HKUST Guangzhou".data =
        some "Lawrence Berkeley National Laboratory".data := by
  refine ⟨by decide, by decide, by decide⟩

open ICLR Enrich in
/-- Claim C4 (amended): rules are tried in order with the first match
winning; a raw string matching the campus-specific HKUST (Guangzhou) pattern
normalizes to the campus-specific canonical name PROVIDED none of the three
earlier special-case rules (Tsinghua-Berkeley, Lawrence Berkeley,
UC Berkeley) matches; in every case such a string never normalizes to the
bare main-campus name. -/
theorem hkust_campus_rule (name : Str)
    (hgz : reMatch hkustGZRule (rawOf name) = true) :
    ((reMatch tsinghuaBerkeleyRule (rawOf name) = false ∧
      reMatch lawrenceBerkeleyRule (rawOf name) = false ∧
      reMatch ucBerkeleyRule (rawOf name) = false) →
      normInstL name =
        some "Hong Kong University of Science and Technology (Guangzhou)".data) ∧
    normInstL name ≠
      some "Hong Kong University of Science and Technology".data := by
  have hne : name.isEmpty = false := by
    cases h : name.isEmpty
    · rfl
    · exfalso
      rw [List.isEmpty_iff] at h
      subst h
      exact absurd hgz (by decide)
  have h1 : (replaceSub ['&'] " and ".data (trimL name)).isEmpty = false := by
    cases h : (replaceSub ['&'] " and ".data (trimL name)).isEmpty
    · rfl
    · exfalso
      rw [List.isEmpty_iff] at h
      have hraw : rawOf name = [] := by
        unfold rawOf
        rw [h]
        rfl
      rw [hraw] at hgz
      exact absurd hgz (by decide)
  have hbody : normInstL name =
      match findRule instRules (rawOf name) with
      | some repl => some repl.data
      | none =>
        if (rawOf name).contains ',' then some (commaFallback (rawOf name))
        else some (rawOf name) := by
    unfold normInstL
    rw [hne, h1, if_neg (by decide : ¬(false = true)),
      if_neg (by decide : ¬(false = true))]
  cases ht : reMatch tsinghuaBerkeleyRule (rawOf name) with
  | true =>
    have hfr : findRule instRules (rawOf name) = some "Tsinghua University" := by
      unfold instRules
      rw [findRule_cons, ht, if_pos rfl]
    refine ⟨fun hc => absurd hc.1 (by decide), ?_⟩
    rw [hbody, hfr]
    show some "Tsinghua University".data ≠
      some "Hong Kong University of Science and Technology".data
    decide
  | false =>
    cases hl : reMatch lawrenceBerkeleyRule (rawOf name) with
    | true =>
      have hfr : findRule instRules (rawOf name) =
          some "Lawrence Berkeley National Laboratory" := by
        unfold instRules
        rw [findRule_cons, ht, if_neg (by decide : ¬(false = true)),
          findRule_cons, hl, if_pos rfl]
      refine ⟨fun hc => absurd hc.2.1 (by decide), ?_⟩
      rw [hbody, hfr]
      show some "Lawrence Berkeley National Laboratory".data ≠
        some "Hong Kong University of Science and Technology".data
      decide
    | false =>
      cases hu : reMatch ucBerkeleyRule (rawOf name) with
      | true =>
        have hfr : findRule instRules (rawOf name) =
            some "University of California, Berkeley" := by
          unfold instRules
          rw [findRule_cons, ht, if_neg (by decide : ¬(false = true)),
            findRule_cons, hl, if_neg (by decide : ¬(false = true)),
            findRule_cons, hu, if_pos rfl]
        refine ⟨fun hc => absurd hc.2.2 (by decide), ?_⟩
        rw [hbody, hfr]
        show some "University of California, Berkeley".data ≠
          some "Hong Kong University of Science and Technology".data
        decide
      | false =>
        have hfr : findRule instRules (rawOf name) =
            some "Hong Kong University of Science and Technology (Guangzhou)" := by
          unfold instRules
          rw [findRule_cons, ht, if_neg (by decide : ¬(false = true)),
            findRule_cons, hl, if_neg (by decide : ¬(false = true)),
            findRule_cons, hu, if_neg (by decide : ¬(false = true)),
            findRule_cons, hgz, if_pos rfl]
        refine ⟨fun _ => ?_, ?_⟩
        · rw [hbody, hfr]
        · rw [hbody, hfr]
          show some
              "Hong Kong University of Science and Technology (Guangzhou)".data ≠
            some "Hong Kong University of Science and Technology".data
          decide

open ICLR Enrich in
/-- Witness for C4: "HKUST Guangzhou" matches the campus-specific pattern,
none of the three earlier rules fires, and the result is the campus-specific
canonical name. -/
theorem hkust_campus_rule_witness :
    normInstL "HKUST Guangzhou".data =
        some "Hong Kong University of Science and Technology (Guangzhou)".data ∧
      normInstL "HKUST Guangzhou".data ≠
        some "Hong Kong University of Science and Technology".data := by
  have h := hkust_campus_rule "HKUST Guangzhou".data (by decide)
  exact ⟨h.1 ⟨by decide, by decide, by decide⟩, h.2⟩

namespace Convert

theorem pyOr_unknownInst_not_empty (o : Option Str) :
    (pyOr o unknownInst).isEmpty = false := by
  rcases o with _ | s
  · rfl
  · show (if s.isEmpty = true then unknownInst else s).isEmpty = false
    split_ifs with h
    · rfl
    · simpa using h

theorem knownFields_mergePerson (p : PersonRec) (i c r : Str) :
    knownFields p ≤ knownFields (mergePerson p i c r) := by
  unfold knownFields
  rw [mergePerson_nationality, mergePerson_institution]
  split_ifs <;> simp_all

theorem processPerson_truthy_none {st : ConvState} {obj : PersonObj}
    {role : Str} (h : truthy obj.id = none) :
    processPerson st obj role = st := by
  unfold processPerson
  rw [h]

theorem processPerson_truthy_some {st : ConvState} {obj : PersonObj}
    {role : Str} {pid : Str} (h : truthy obj.id = some pid) :
    processPerson st obj role = processPersonCore st pid obj role := by
  unfold processPerson
  rw [h]

theorem core_people_new {st : ConvState} {pid : Str} {obj : PersonObj}
    {role : Str} (hl : lookupA pid st.people = none) :
    (processPersonCore st pid obj role).people =
      st.people ++
        [(pid,
          newPersonRec pid obj.name (pyOr obj.institution unknownInst)
            (normCountryL obj.country) role)] := by
  unfold processPersonCore
  rw [hl]

theorem core_people_upd {st : ConvState} {pid : Str} {obj : PersonObj}
    {role : Str} {p0 : PersonRec} (hl : lookupA pid st.people = some p0) :
    (processPersonCore st pid obj role).people =
      updA pid
        (fun p =>
          mergePerson p (pyOr obj.institution unknownInst)
            (normCountryL obj.country) role)
        st.people := by
  unfold processPersonCore
  rw [hl]

theorem core_insts_skip {st : ConvState} {pid : Str} {obj : PersonObj}
    {role : Str}
    (hg : ¬(¬(pyOr obj.institution unknownInst).isEmpty = true ∧
        pyOr obj.institution unknownInst ≠ unknownInst)) :
    (processPersonCore st pid obj role).insts = st.insts := by
  unfold processPersonCore
  rw [if_neg hg]

theorem core_insts_new {st : ConvState} {pid : Str} {obj : PersonObj}
    {role : Str}
    (hg : ¬(pyOr obj.institution unknownInst).isEmpty = true ∧
      pyOr obj.institution unknownInst ≠ unknownInst)
    (hl : lookupA (pyOr obj.institution unknownInst) st.insts = none) :
    (processPersonCore st pid obj role).insts =
      st.insts ++
        [(pyOr obj.institution unknownInst,
          { institution_name := pyOr obj.institution unknownInst
            country :=
              inferCountryForInstitution (pyOr obj.institution unknownInst)
                (normCountryL obj.country)
            institution_type :=
              inferInstitutionType (pyOr obj.institution unknownInst) })] := by
  unfold processPersonCore
  rw [if_pos hg, hl]

theorem core_insts_upd {st : ConvState} {pid : Str} {obj : PersonObj}
    {role : Str} {r0 : InstRec}
    (hg : ¬(pyOr obj.institution unknownInst).isEmpty = true ∧
      pyOr obj.institution unknownInst ≠ unknownInst)
    (hl : lookupA (pyOr obj.institution unknownInst) st.insts = some r0) :
    (processPersonCore st pid obj role).insts =
      updA (pyOr obj.institution unknownInst)
        (fun r =>
          if r.country = unknownStr ∧
              inferCountryForInstitution (pyOr obj.institution unknownInst)
                  (normCountryL obj.country) ≠ unknownStr then
            { r with
                country :=
                  inferCountryForInstitution (pyOr obj.institution unknownInst)
                    (normCountryL obj.country) }
          else r)
        st.insts := by
  unfold processPersonCore
  rw [if_pos hg, hl]

theorem knownFieldsAt_processPerson (st : ConvState) (obj : PersonObj)
    (role : Str) (pid : Str) :
    knownFieldsAt pid st ≤ knownFieldsAt pid (processPerson st obj role) := by
  rcases htr : truthy obj.id with _ | pid'
  · rw [processPerson_truthy_none htr]
  · rw [processPerson_truthy_some htr]
    rcases hl : lookupA pid' st.people with _ | p0
    · unfold knownFieldsAt
      rw [core_people_new hl]
      by_cases hpid : pid = pid'
      · subst hpid
        rw [hl]
        exact Nat.zero_le _
      · rcases hpp : lookupA pid st.people with _ | w
        · rw [lookupA_append_of_none _ hpp,
            show lookupA pid
                [(pid',
                  newPersonRec pid' obj.name (pyOr obj.institution unknownInst)
                    (normCountryL obj.country) role)] =
              (none : Option PersonRec) from by simp [lookupA, hpid]]
        · rw [lookupA_append_of_some _ hpp]
    · unfold knownFieldsAt
      rw [core_people_upd hl]
      by_cases hpid : pid = pid'
      · subst hpid
        rw [lookupA_updA_self, hl, Option.map_some']
        exact knownFields_mergePerson p0 _ _ _
      · rw [lookupA_updA_ne _ _ hpid]

end Convert

open ICLR Convert in
/-- Claim C1: the Identity Graph Builder merge is directional and monotonic.
For a person already in the table, a non-Unknown stored nationality is never
changed, and an Unknown stored nationality is replaced by the newly seen
known country; the same directional rule holds for an institution's stored
country; and one process_person step, as well as any processed record set,
never decreases a person's known-field count. -/
theorem identity_merge_directional (st : ConvState) (obj : PersonObj)
    (role : Str) :
    (∀ (pid : Str) (p q : PersonRec),
      lookupA pid st.people = some p →
      lookupA pid (processPerson st obj role).people = some q →
      ((p.nationality ≠ unknownStr → q.nationality = p.nationality) ∧
        (p.nationality = unknownStr → truthy obj.id = some pid →
          normCountryL obj.country ≠ unknownStr →
          q.nationality = normCountryL obj.country))) ∧
    (∀ (iname : Str) (a b : InstRec),
      lookupA iname st.insts = some a →
      lookupA iname (processPerson st obj role).insts = some b →
      ((a.country ≠ unknownStr → b.country = a.country) ∧
        (a.country = unknownStr → truthy obj.id ≠ none →
          pyOr obj.institution unknownInst = iname → iname ≠ unknownInst →
          inferCountryForInstitution iname (normCountryL obj.country) ≠
            unknownStr →
          b.country =
            inferCountryForInstitution iname (normCountryL obj.country)))) ∧
    (∀ pid : Str,
      knownFieldsAt pid st ≤ knownFieldsAt pid (processPerson st obj role)) ∧
    (∀ (objs : List (PersonObj × Str)) (st0 : ConvState) (pid : Str),
      knownFieldsAt pid st0 ≤ knownFieldsAt pid (processAll st0 objs)) := by
  refine ⟨?_, ?_, knownFieldsAt_processPerson st obj role, ?_⟩
  · intro pid p q hp hq
    rcases htr : truthy obj.id with _ | pid'
    · rw [processPerson_truthy_none htr, hp] at hq
      obtain rfl := Option.some.inj hq
      exact ⟨fun _ => rfl, fun _ habs _ => Option.noConfusion habs⟩
    · rw [processPerson_truthy_some htr] at hq
      rcases hl : lookupA pid' st.people with _ | p0
      · rw [core_people_new hl] at hq
        by_cases hpid : pid = pid'
        · subst hpid
          exact Option.noConfusion (hl.symm.trans hp)
        · rw [lookupA_append_of_some _ hp] at hq
          obtain rfl := Option.some.inj hq
          exact ⟨fun _ => rfl,
            fun _ hps _ => absurd (Option.some.inj hps).symm hpid⟩
      · rw [core_people_upd hl] at hq
        by_cases hpid : pid = pid'
        · subst hpid
          rw [lookupA_updA_self, hp, Option.map_some'] at hq
          obtain rfl := Option.some.inj hq
          constructor
          · intro hknown
            rw [mergePerson_nationality, if_neg (fun hc => hknown hc.1)]
          · intro hunk _ hcv
            rw [mergePerson_nationality, if_pos ⟨hunk, hcv⟩]
        · rw [lookupA_updA_ne _ _ hpid, hp] at hq
          obtain rfl := Option.some.inj hq
          exact ⟨fun _ => rfl,
            fun _ hps _ => absurd (Option.some.inj hps).symm hpid⟩
  · intro iname a b ha hb
    rcases htr : truthy obj.id with _ | pid'
    · rw [processPerson_truthy_none htr, ha] at hb
      obtain rfl := Option.some.inj hb
      exact ⟨fun _ => rfl, fun _ htrne _ _ _ => absurd rfl htrne⟩
    · rw [processPerson_truthy_some htr] at hb
      by_cases hg : ¬(pyOr obj.institution unknownInst).isEmpty = true ∧
          pyOr obj.institution unknownInst ≠ unknownInst
      · rcases hli : lookupA (pyOr obj.institution unknownInst) st.insts
            with _ | r0
        · rw [core_insts_new hg hli] at hb
          by_cases hni : iname = pyOr obj.institution unknownInst
          · rw [← hni] at hli
            exact Option.noConfusion (hli.symm.trans ha)
          · rw [lookupA_append_of_some _ ha] at hb
            obtain rfl := Option.some.inj hb
            exact ⟨fun _ => rfl,
              fun _ _ hIn _ _ => absurd hIn.symm hni⟩
        · rw [core_insts_upd hg hli] at hb
          by_cases hni : iname = pyOr obj.institution unknownInst
          · rw [← hni] at hb
            rw [lookupA_updA_self, ha, Option.map_some'] at hb
            obtain rfl := Option.some.inj hb
            constructor
            · intro hknown
              split_ifs with hc
              · exact absurd hc.1 hknown
              · rfl
            · intro hunk _ hIn _ hic
              rw [hni] at hic ⊢
              split_ifs with hc
              · rfl
              · exact absurd ⟨hunk, hic⟩ hc
          · rw [lookupA_updA_ne _ _ hni, ha] at hb
            obtain rfl := Option.some.inj hb
            exact ⟨fun _ => rfl,
              fun _ _ hIn _ _ => absurd hIn.symm hni⟩
      · rw [core_insts_skip hg, ha] at hb
        obtain rfl := Option.some.inj hb
        refine ⟨fun _ => rfl, fun _ _ hIn hnUnk _ => absurd ?_ hg⟩
        exact ⟨by simp [pyOr_unknownInst_not_empty],
          fun he => hnUnk (hIn.symm.trans he)⟩
  · intro objs
    induction objs with
    | nil => intro st0 pid; exact Nat.le_refl _
    | cons o os ih =>
      intro st0 pid
      calc knownFieldsAt pid st0 ≤
            knownFieldsAt pid (processPerson st0 o.1 o.2) :=
          knownFieldsAt_processPerson st0 o.1 o.2 pid
        _ ≤ knownFieldsAt pid (processAll (processPerson st0 o.1 o.2) os) :=
          ih (processPerson st0 o.1 o.2) pid

open ICLR Convert in
/-- Witness for C1: a stored person with Unknown nationality, re-encountered
with country "US", ends with nationality "United States". -/
theorem identity_merge_directional_witness :
    (lookupA "p1".data
          (processPerson
              ⟨[("p1".data,
                  ⟨"P".data, unknownStr, unknownInst, [], unknownStr,
                    "author".data, [], []⟩)],
                []⟩
              ⟨some "p1".data, none, some "Inst X".data, some "US".data⟩
              "reviewer".data).people).map
        PersonRec.nationality =
      some "United States".data := by
  have hq : lookupA "p1".data
      (processPerson
          ⟨[("p1".data,
              ⟨"P".data, unknownStr, unknownInst, [], unknownStr,
                "author".data, [], []⟩)],
            []⟩
          ⟨some "p1".data, none, some "Inst X".data, some "US".data⟩
          "reviewer".data).people =
      some
        ⟨"P".data, "United States".data, "Inst X".data, ["Inst X".data],
          unknownStr, "author,reviewer".data, [], []⟩ := by
    decide
  have h :=
    ((identity_merge_directional
          ⟨[("p1".data,
              ⟨"P".data, unknownStr, unknownInst, [], unknownStr,
                "author".data, [], []⟩)],
            []⟩
          ⟨some "p1".data, none, some "Inst X".data, some "US".data⟩
          "reviewer".data).1
        "p1".data
        ⟨"P".data, unknownStr, unknownInst, [], unknownStr, "author".data,
          [], []⟩
        ⟨"P".data, "United States".data, "Inst X".data, ["Inst X".data],
          unknownStr, "author,reviewer".data, [], []⟩
        (by decide) hq).2
      (by decide) (by decide) (by decide)
  rw [hq, Option.map_some', h]
  decide

open ICLR Convert Anomaly in
/-- Claim C2: a review without a truthy reviewer id gets a synthetic id —
from the signature segment after "Reviewer_" when the signature contains it,
otherwise from the review's own id; every assigned id is non-empty, so the
downstream reviewer aggregation (which skips falsy ids) keeps every cleaned
review; and distinct suffixes give distinct synthetic identities. -/
theorem synthetic_reviewer_id :
    (∀ (r : RawReview) (sg : Str), truthy r.profileId = none →
      r.signature = some sg → ¬sg.isEmpty = true →
      containsSub "Reviewer_".data sg = true →
      assignedReviewerId r =
        anonymousTag ++ (splitStr "Reviewer_".data sg).getD 1 []) ∧
    (∀ r : RawReview, truthy r.profileId = none →
      (∀ sg, r.signature = some sg →
        sg.isEmpty = true ∨ containsSub "Reviewer_".data sg = false) →
      assignedReviewerId r = anonymousTag ++ pyFormatOpt r.id) ∧
    (∀ r : RawReview, (assignedReviewerId r).isEmpty = false) ∧
    (∀ rs : List RawReview,
      aggregatedReviewCount (rs.map cleanReviewOf) = rs.length) ∧
    (∀ a b : Str, anonymousTag ++ a = anonymousTag ++ b → a = b) := by
  have hne : ∀ r : RawReview, (assignedReviewerId r).isEmpty = false := by
    intro r
    unfold assignedReviewerId
    rcases htr : truthy r.profileId with _ | rid
    · rcases hsig : r.signature with _ | sg
      · simp [anonymousTag]
      · show (if ¬sg.isEmpty = true ∧ containsSub "Reviewer_".data sg = true
            then anonymousTag ++ (splitStr "Reviewer_".data sg).getD 1 []
            else anonymousTag ++ pyFormatOpt r.id).isEmpty = false
        split_ifs <;> simp [anonymousTag]
    · have hrid : rid.isEmpty = false := by
        unfold truthy at htr
        rcases hpid : r.profileId with _ | t
        · rw [hpid] at htr
          exact Option.noConfusion htr
        · rw [hpid] at htr
          replace htr : (if t.isEmpty = true then none else some t) =
              some rid := htr
          by_cases ht : t.isEmpty = true
          · rw [if_pos ht] at htr
            exact Option.noConfusion htr
          · rw [if_neg ht] at htr
            obtain rfl := Option.some.inj htr
            simpa using ht
      exact hrid
  refine ⟨?_, ?_, hne, ?_, ?_⟩
  · intro r sg htr hsig hnesg hcon
    unfold assignedReviewerId
    rw [htr, hsig]
    exact if_pos ⟨hnesg, hcon⟩
  · intro r htr hall
    unfold assignedReviewerId
    rw [htr]
    rcases hsig : r.signature with _ | sg
    · rfl
    · rcases hall sg hsig with h | h
      · exact if_neg (fun hc => hc.1 h)
      · exact if_neg (fun hc => absurd hc.2 (by rw [h]; decide))
  · intro rs
    unfold aggregatedReviewCount
    rw [List.filter_eq_self.mpr, List.length_map]
    intro rv hrv
    rcases List.mem_map.mp hrv with ⟨r, _, rfl⟩
    simp [cleanReviewOf, hne r]
  · intro a b h
    exact List.append_cancel_left h

open ICLR Convert in
/-- Witness for C2: a review with no reviewer profile id and signature
containing "Reviewer_7f2a" is assigned the synthetic id
anonymous_reviewer_7f2a. -/
theorem synthetic_reviewer_id_witness :
    assignedReviewerId
        ⟨some "rev9".data,
          some "ICLR 2026 Conference Submission1 Reviewer_7f2a".data,
          none⟩ =
      "anonymous_reviewer_7f2a".data := by
  have h := synthetic_reviewer_id.1
    ⟨some "rev9".data,
      some "ICLR 2026 Conference Submission1 Reviewer_7f2a".data, none⟩
    "ICLR 2026 Conference Submission1 Reviewer_7f2a".data
    rfl rfl (by decide) (by decide)
  rw [h]
  decide

end ICLR
